import Mathlib

/-!
Shallow embedding of the client-side submission/result orchestration of the
AI-resume-screening frontend: the `ResumeUploadImproved` component
(src/frontend/ats-resume-app/src/components/ResumeUpload.jsx) and the
`ResumeUpload` variant (src/unnamed/part_000).  JS numbers are modelled by ℚ,
JS strings by `String` (with `Char.toLower` as the ASCII model of
`toLowerCase`), optional JSON fields by `Option`/`JField`, and the asynchronous
submit/export/copy handlers by state-transition functions that also return the
outbound request (when one is issued) and the list of scheduled timeouts.
-/

namespace ResumeApp

/-- A JSON field value as the display layer inspects it: absent (`missing`),
JS `null`, a number, or some other (string) value.  `typeof x === "number"`
holds exactly for `numv`. -/
inductive JField where
  | missing
  | nullv
  | numv (v : ℚ)
  | strv (s : String)
deriving DecidableEq

/-- Models the JS test `typeof x === "number"`. -/
def JField.isNumber : JField → Bool
  | .numv _ => true
  | _ => false

/-- Models the JS nullish coalescing `x ?? 0`: `missing`/`null` become the
number 0, anything else passes through. -/
def JField.coalesceZero : JField → JField
  | .missing => .numv 0
  | .nullv => .numv 0
  | f => f

/-- The evaluation result returned by the upload endpoint, every field
independently optional (spec section 6). -/
structure EvalResult where
  ats_score : JField
  keyword_overlap : JField
  semantic_similarity : JField
  match_score : JField
  feedback : Option String
  strengths : Option (List String)
  weaknesses : Option (List String)
deriving DecidableEq

/-- `getScoreColor` from ResumeUpload.jsx lines 93-98 (identical in
part_000 lines 29-34 and in `ScorePill.getColor`). -/
def getScoreColor (score : ℚ) : String :=
  if score ≥ 80 then "success"
  else if score ≥ 60 then "info"
  else if score ≥ 40 then "warning"
  else "error"

/-- One visible piece of the rendered results panel that involves a metric or
the feedback text. -/
inductive DisplayItem where
  | scorePill (label : String) (value : JField)
  | atsSection (score : ℚ) (color : String)
  | metricLine (label : String) (value : ℚ)
  | feedbackText (t : String)
deriving DecidableEq

/-- The `typeof result.ats_score === "number" && <ATS section>` conditional
(present in both variants): rendered only for a numeric score, with the
bucketed color. -/
def atsBlock (a : JField) : List DisplayItem :=
  match a with
  | .numv v => [.atsSection v (getScoreColor v)]
  | _ => []

/-- A `typeof result.x === "number" && <Typography>` conditional of the basic
variant (part_000 lines 229-243). -/
def metricBlock (label : String) (x : JField) : List DisplayItem :=
  match x with
  | .numv v => [.metricLine label v]
  | _ => []

/-- The `result.feedback && <Summary>` conditional of the improved variant
(truthiness check: absent or empty renders nothing). -/
def feedbackBlockImproved (f : Option String) : List DisplayItem :=
  match f with
  | some t => if t = "" then [] else [.feedbackText t]
  | none => []

/-- The unconditional `{result.feedback}` of the basic variant. -/
def feedbackBlockBasic (f : Option String) : List DisplayItem :=
  match f with
  | some t => [.feedbackText t]
  | none => []

/-- The results panel of `ResumeUploadImproved` (ResumeUpload.jsx lines
278-312): the three `ScorePill`s are rendered unconditionally with
`result.x ?? 0`; the ATS section only when `typeof result.ats_score ===
"number"`; the feedback block only when `result.feedback` is truthy. -/
def renderImproved (r : EvalResult) : List DisplayItem :=
  [.scorePill "Keyword" r.keyword_overlap.coalesceZero,
   .scorePill "Semantic" r.semantic_similarity.coalesceZero,
   .scorePill "Match" r.match_score.coalesceZero]
  ++ atsBlock r.ats_score
  ++ feedbackBlockImproved r.feedback

/-- The results panel of the `ResumeUpload` variant (part_000 lines 213-248):
each of the four metrics is rendered only when `typeof x === "number"`, the
feedback text is rendered as-is. -/
def renderBasic (r : EvalResult) : List DisplayItem :=
  atsBlock r.ats_score
  ++ metricBlock "Keyword Overlap" r.keyword_overlap
  ++ metricBlock "Semantic Similarity" r.semantic_similarity
  ++ metricBlock "Overall Match Score" r.match_score
  ++ feedbackBlockBasic r.feedback

/-- Whether a rendered panel contains the ATS section. -/
def rendersAts (items : List DisplayItem) : Bool :=
  items.any fun i => match i with
    | .atsSection _ _ => true
    | _ => false

/-- Whether a rendered panel contains the metric text line with the given
label. -/
def rendersLine (label : String) (items : List DisplayItem) : Bool :=
  items.any fun i => match i with
    | .metricLine l _ => l = label
    | _ => false

/-! ### The ECMAScript notion of whitespace and `String.prototype.trim` -/

/-- The ECMAScript WhiteSpace / LineTerminator code points removed by
`String.prototype.trim`. -/
def jsIsWhitespace (c : Char) : Bool :=
  (0x09 ≤ c.val && c.val ≤ 0x0D) || c.val = 0x20 || c.val = 0xA0 ||
  c.val = 0x1680 || (0x2000 ≤ c.val && c.val ≤ 0x200A) ||
  c.val = 0x2028 || c.val = 0x2029 || c.val = 0x202F ||
  c.val = 0x205F || c.val = 0x3000 || c.val = 0xFEFF

/-- Models `s.trim()`. -/
def jsTrim (s : String) : String :=
  ⟨((s.data.dropWhile jsIsWhitespace).reverse.dropWhile jsIsWhitespace).reverse⟩

/-! ### `toLowerCase` and `includes` -/

/-- Models `s.toLowerCase()` (ASCII range, via `Char.toLower`). -/
def toLowerCase (s : String) : String :=
  ⟨s.data.map Char.toLower⟩

/-- Models `hay.includes(needle)` on character lists: some suffix of `hay`
starts with `needle`. -/
def jsIncludes : List Char → List Char → Bool
  | [], needle => needle.isEmpty
  | h :: t, needle => needle.isPrefixOf (h :: t) || jsIncludes t needle

/-- Models `s.includes(t)` for JS strings. -/
def stringIncludes (s t : String) : Bool :=
  jsIncludes s.data t.data

/-- The `filteredStrengths` / `filteredWeaknesses` computation
(ResumeUpload.jsx lines 170-175):
`list.filter(s => s.toLowerCase().includes(query.toLowerCase()))`. -/
def filterMatches (l : List String) (q : String) : List String :=
  l.filter fun s => stringIncludes (toLowerCase s) (toLowerCase q)

/-! ### Component state and handlers -/

/-- The React state of the component: `resume` (the chosen file, modelled by
its name), `jobDescription`, `loading`, `result`, and the single-slot
`error` / `success` messages. -/
structure CState where
  resume : Option String
  jobDescription : String
  loading : Bool
  result : Option EvalResult
  error : String
  success : String
deriving DecidableEq

/-- The multipart payload built by `handleSubmit`: the `resume` field and the
optional `job_description` field. -/
structure Payload where
  resume : String
  job_description : Option String
deriving DecidableEq

/-- Payload construction (ResumeUpload.jsx lines 107-109): the
`job_description` field is appended only when `jobDescription.trim()` is
truthy, and then carries the untrimmed text. -/
def buildFormData (file : String) (jd : String) : Payload :=
  { resume := file
    job_description := if jsTrim jd = "" then none else some jd }

/-- The error body an axios failure may carry: `{ error?: string }`. -/
structure ErrBody where
  error : Option String
deriving DecidableEq

/-- The `err.response` object: HTTP status and optional parsed body. -/
structure ErrResponse where
  status : Nat
  data : Option ErrBody
deriving DecidableEq

/-- An axios error: `response` when the server answered with a failing
status, `request` true when the request was dispatched, `message` the
exception description. -/
structure AxiosErr where
  response : Option ErrResponse
  request : Bool
  message : String
deriving DecidableEq

/-- Outcome of the awaited upload call. -/
inductive UploadOutcome where
  | ok (data : EvalResult)
  | fail (e : AxiosErr)
deriving DecidableEq

/-- The status-code fallback message of the server-error branch. -/
def serverFallbackMsg (status : Nat) : String :=
  "Server returned " ++ toString status ++ ". Please check your resume and try again."

/-- The fixed network-unreachable message. -/
def networkMsg : String :=
  "No response from the server. Please ensure the backend is running and reachable."

/-- The validation message for a missing resume file. -/
def validationMsg : String :=
  "Please upload a resume file."

/-- The catch-block classification (ResumeUpload.jsx lines 126-135):
`err.response.data?.error || fallback` when a response exists (a JS-falsy,
i.e. empty, error string falls through to the fallback), the fixed network
message when only `err.request` exists, else the exception message. -/
def classifyError (e : AxiosErr) : String :=
  match e.response with
  | some resp =>
      match resp.data with
      | some body =>
          match body.error with
          | some s => if s = "" then serverFallbackMsg resp.status else s
          | none => serverFallbackMsg resp.status
      | none => serverFallbackMsg resp.status
  | none =>
      if e.request then networkMsg
      else "Error: " ++ e.message

/-- A scheduled `setTimeout` action. -/
inductive TimeoutAction where
  | clearSuccess
deriving DecidableEq

/-- A scheduled timeout: delay in milliseconds and its action. -/
structure TimeoutEffect where
  delayMs : Nat
  action : TimeoutAction
deriving DecidableEq

/-- Running a scheduled timeout action against the component state. -/
def runTimeoutAction : TimeoutAction → CState → CState
  | .clearSuccess, s => { s with success := "" }

/-- Result of a `handleSubmit` invocation: the final component state, the
outbound upload request (`none` when no network call was issued), and the
timeouts it scheduled. -/
structure SubmitOut where
  state : CState
  request : Option Payload
  timeouts : List TimeoutEffect
deriving DecidableEq

/-- `handleSubmit` (ResumeUpload.jsx lines 100-139), collapsed over the
awaited network outcome `net`: validation short-circuit when no file is
chosen; otherwise loading is set, messages and the prior result are cleared
before the call, and the outcome fills `result`/`success` or the classified
`error`; `finally` clears loading. -/
def handleSubmit (s : CState) (net : UploadOutcome) : SubmitOut :=
  match s.resume with
  | none => ⟨{ s with error := validationMsg }, none, []⟩
  | some file =>
      let fd := buildFormData file s.jobDescription
      let s1 : CState :=
        { s with loading := true, error := "", result := none, success := "" }
      match net with
      | .ok d =>
          ⟨{ s1 with result := some d,
                     success := "Resume evaluated successfully!",
                     loading := false }, some fd, []⟩
      | .fail e =>
          ⟨{ s1 with error := classifyError e, loading := false }, some fd, []⟩

/-- Outcome of the awaited export call. -/
inductive ExportOutcome where
  | ok
  | fail
deriving DecidableEq

/-- Result of a `handleDownloadPDF` invocation: final state, the request body
sent to the export endpoint (`none` when no request was issued), the filename
the returned stream was saved under, and scheduled timeouts. -/
structure ExportOut where
  state : CState
  request : Option EvalResult
  savedAs : Option String
  timeouts : List TimeoutEffect
deriving DecidableEq

/-- The validation message when exporting with no live result. -/
def noFeedbackMsg : String :=
  "No feedback available to export."

/-- `handleDownloadPDF` (ResumeUpload.jsx lines 141-165): validation
short-circuit when no result is live; otherwise the full result is posted and
on success the returned blob is saved as `resume_feedback.pdf`. -/
def handleDownloadPDF (s : CState) (net : ExportOutcome) : ExportOut :=
  match s.result with
  | none => ⟨{ s with error := noFeedbackMsg }, none, none, []⟩
  | some r =>
      match net with
      | .ok => ⟨s, some r, some "resume_feedback.pdf", []⟩
      | .fail =>
          ⟨{ s with error := "Failed to download PDF. Please try again." },
           some r, none, []⟩

/-- Result of a `copyToClipboard` invocation. -/
structure CopyOut where
  state : CState
  timeouts : List TimeoutEffect
deriving DecidableEq

/-- `copyToClipboard` (ResumeUpload.jsx lines 177-185): on success sets the
confirmation message and schedules `setTimeout(() => setSuccess(""), 2000)`;
on failure writes the shared error slot. -/
def copyToClipboard (s : CState) (ok : Bool) : CopyOut :=
  if ok then
    ⟨{ s with success := "Copied to clipboard" }, [⟨2000, .clearSuccess⟩]⟩
  else
    ⟨{ s with error := "Failed to copy" }, []⟩

/-- The Reset button handler (ResumeUpload.jsx line 247). -/
def resetAction (s : CState) : CState :=
  { s with result := none, error := "", success := "", resume := none }

/-- A concrete evaluation result, as in the spec example
`{ ats_score: 85, feedback: "Good match" }`. -/
def sampleResult : EvalResult :=
  { ats_score := .numv 85, keyword_overlap := .missing,
    semantic_similarity := .missing, match_score := .missing,
    feedback := some "Good match", strengths := none, weaknesses := none }

/-! ### Helper lemmas -/

/-- `jsIncludes` decides the infix (contiguous substring) relation. -/
lemma jsIncludes_iff (hay needle : List Char) :
    jsIncludes hay needle = true ↔ needle <:+: hay := by
  induction hay with
  | nil => simp [jsIncludes, List.isEmpty_iff]
  | cons h t ih =>
      simp [jsIncludes, ih, List.infix_cons_iff, List.isPrefixOf_iff_prefix]

/-- `stringIncludes` as a decided substring proposition. -/
lemma stringIncludes_eq_decide (s t : String) :
    stringIncludes s t = decide (t.data <:+: s.data) := by
  apply Bool.eq_iff_iff.mpr
  simp [stringIncludes, jsIncludes_iff]

/-- Every list contains the empty list. -/
lemma jsIncludes_nil (hay : List Char) : jsIncludes hay [] = true := by
  cases hay <;> simp [jsIncludes, List.isPrefixOf]

/-- `rendersAts` distributes over list concatenation. -/
lemma rendersAts_append (l1 l2 : List DisplayItem) :
    rendersAts (l1 ++ l2) = (rendersAts l1 || rendersAts l2) := by
  simp [rendersAts]

/-- `rendersLine` distributes over list concatenation. -/
lemma rendersLine_append (label : String) (l1 l2 : List DisplayItem) :
    rendersLine label (l1 ++ l2) = (rendersLine label l1 || rendersLine label l2) := by
  simp [rendersLine]

/-- The ATS section appears exactly when the score field is numeric. -/
lemma rendersAts_atsBlock (a : JField) : rendersAts (atsBlock a) = a.isNumber := by
  cases a <;> rfl

/-- A metric line block never contains the ATS section. -/
lemma rendersAts_metricBlock (label : String) (x : JField) :
    rendersAts (metricBlock label x) = false := by
  cases x <;> rfl

/-- The improved feedback block never contains the ATS section. -/
lemma rendersAts_feedbackImproved (f : Option String) :
    rendersAts (feedbackBlockImproved f) = false := by
  cases f with
  | none => rfl
  | some t =>
      show rendersAts (if t = "" then [] else [DisplayItem.feedbackText t]) = false
      split <;> rfl

/-- The basic feedback block never contains the ATS section. -/
lemma rendersAts_feedbackBasic (f : Option String) :
    rendersAts (feedbackBlockBasic f) = false := by
  cases f <;> rfl

/-- A list of score pills contains neither ATS section nor metric lines. -/
lemma rendersAts_pills (l1 l2 l3 : String) (v1 v2 v3 : JField) :
    rendersAts [DisplayItem.scorePill l1 v1, DisplayItem.scorePill l2 v2,
                DisplayItem.scorePill l3 v3] = false := rfl

/-- Score pills carry no metric text line. -/
lemma rendersLine_pills (label l1 l2 l3 : String) (v1 v2 v3 : JField) :
    rendersLine label [DisplayItem.scorePill l1 v1, DisplayItem.scorePill l2 v2,
                DisplayItem.scorePill l3 v3] = false := rfl

/-- The ATS block carries no metric text line. -/
lemma rendersLine_atsBlock (label : String) (a : JField) :
    rendersLine label (atsBlock a) = false := by
  cases a <;> rfl

/-- A metric line with a given label appears in a metric block exactly when
the block has that label and its field is numeric. -/
lemma rendersLine_metricBlock (label l : String) (x : JField) :
    rendersLine label (metricBlock l x) = (x.isNumber && decide (l = label)) := by
  cases x <;> simp [metricBlock, rendersLine, JField.isNumber]

/-- The improved feedback block carries no metric text line. -/
lemma rendersLine_feedbackImproved (label : String) (f : Option String) :
    rendersLine label (feedbackBlockImproved f) = false := by
  cases f with
  | none => rfl
  | some t =>
      show rendersLine label (if t = "" then [] else [DisplayItem.feedbackText t]) = false
      split <;> rfl

/-- The basic feedback block carries no metric text line. -/
lemma rendersLine_feedbackBasic (label : String) (f : Option String) :
    rendersLine label (feedbackBlockBasic f) = false := by
  cases f <;> rfl

/-- The server fallback message starts with the letter S. -/
lemma serverFallback_head (st : Nat) :
    (serverFallbackMsg st).data.head? = some ('S' : Char) := by
  simp only [serverFallbackMsg, String.data_append, List.head?_append]
  rfl

/-- The fixed network message never coincides with a server fallback
message. -/
lemma networkMsg_ne_serverFallback (st : Nat) :
    networkMsg ≠ serverFallbackMsg st := by
  intro h
  have h0 := congrArg (fun s : String => s.data.head?) h
  simp only at h0
  rw [serverFallback_head st] at h0
  exact absurd h0 (by decide)

/-! ### Claim theorems -/

/-- Claim C3: for every numeric score v, `getScoreColor v` is "success" iff
v ≥ 80, "info" iff 60 ≤ v < 80, "warning" iff 40 ≤ v < 60, and "error" iff
v < 40; the boundary inputs 0, 40, 60, 80, 100 map to "error", "warning",
"info", "success", "success" respectively. -/
theorem C3_colorBucket (v : ℚ) :
    ((getScoreColor v = "success" ↔ 80 ≤ v) ∧
     (getScoreColor v = "info" ↔ 60 ≤ v ∧ v < 80) ∧
     (getScoreColor v = "warning" ↔ 40 ≤ v ∧ v < 60) ∧
     (getScoreColor v = "error" ↔ v < 40)) ∧
    (getScoreColor 0 = "error" ∧ getScoreColor 40 = "warning" ∧
     getScoreColor 60 = "info" ∧ getScoreColor 80 = "success" ∧
     getScoreColor 100 = "success") := by
  constructor
  · unfold getScoreColor
    by_cases h1 : v ≥ 80
    · rw [if_pos h1]
      refine ⟨⟨fun _ => h1, fun _ => rfl⟩, ?_, ?_, ?_⟩
      · exact ⟨fun h => absurd h (by decide),
          fun h => absurd h.2 (not_lt.mpr h1)⟩
      · exact ⟨fun h => absurd h (by decide),
          fun h => absurd h.2 (not_lt.mpr (by linarith))⟩
      · exact ⟨fun h => absurd h (by decide),
          fun h => absurd h (not_lt.mpr (by linarith))⟩
    · rw [if_neg h1]
      by_cases h2 : v ≥ 60
      · rw [if_pos h2]
        refine ⟨?_, ⟨fun _ => ⟨h2, not_le.mp h1⟩, fun _ => rfl⟩, ?_, ?_⟩
        · exact ⟨fun h => absurd h (by decide), fun h => absurd h h1⟩
        · exact ⟨fun h => absurd h (by decide),
            fun h => absurd h.2 (not_lt.mpr h2)⟩
        · exact ⟨fun h => absurd h (by decide),
            fun h => absurd h (not_lt.mpr (by linarith))⟩
      · rw [if_neg h2]
        by_cases h3 : v ≥ 40
        · rw [if_pos h3]
          refine ⟨?_, ?_, ⟨fun _ => ⟨h3, not_le.mp h2⟩, fun _ => rfl⟩, ?_⟩
          · exact ⟨fun h => absurd h (by decide), fun h => absurd h h1⟩
          · exact ⟨fun h => absurd h (by decide), fun h => absurd h.1 h2⟩
          · exact ⟨fun h => absurd h (by decide),
              fun h => absurd h (not_lt.mpr h3)⟩
        · rw [if_neg h3]
          refine ⟨?_, ?_, ?_, ⟨fun _ => not_le.mp h3, fun _ => rfl⟩⟩
          · exact ⟨fun h => absurd h (by decide), fun h => absurd h h1⟩
          · exact ⟨fun h => absurd h (by decide), fun h => absurd h.1 h2⟩
          · exact ⟨fun h => absurd h (by decide), fun h => absurd h.1 h3⟩
  · refine ⟨?_, ?_, ?_, ?_, ?_⟩ <;> norm_num [getScoreColor]

/-- Claim C5: the strengths/weaknesses filter returns exactly the sublist of
elements containing the query as a case-insensitive substring, preserving
order (it is a `List.filter`, hence a sublist of the source and mutation-free),
and the empty query returns the full list unchanged. -/
theorem C5_filter (l : List String) (q : String) :
    filterMatches l q =
      l.filter (fun s => decide ((toLowerCase q).data <:+: (toLowerCase s).data)) ∧
    (filterMatches l q).Sublist l ∧
    filterMatches l "" = l := by
  refine ⟨?_, ?_, ?_⟩
  · exact List.filter_congr fun s _ => stringIncludes_eq_decide _ _
  · exact List.filter_sublist l
  · exact List.filter_eq_self.mpr fun s _ => by
      simp [stringIncludes, toLowerCase, jsIncludes_nil]

/-- Claim C4, counterexample: the claim says a received response's message is
"the response body's embedded error string if present"; here the body's error
string is present (the empty string) yet the displayed message is not that
string but the status fallback. -/
theorem C4_counterexample :
    ErrBody.error { error := some "" } = some "" ∧
    classifyError { response := some { status := 500, data := some { error := some "" } },
                    request := true, message := "m" } ≠ "" ∧
    classifyError { response := some { status := 500, data := some { error := some "" } },
                    request := true, message := "m" } = serverFallbackMsg 500 := by
  refine ⟨rfl, by decide, by simp [classifyError]⟩

/-- Claim C4 (amended): classification order for a failed submission — with a
response, the body's embedded error string is used only when present and
non-empty (truthy), else the status-code fallback; with a dispatched request
but no response, the fixed network message (never a server fallback message);
otherwise the message derived from the exception description. -/
theorem C4_errorClassification (e : AxiosErr) (st : Nat) :
    (∀ r s, e.response = some r → Option.bind r.data ErrBody.error = some s →
       s ≠ "" → classifyError e = s) ∧
    (∀ r, e.response = some r → Option.bind r.data ErrBody.error = some "" →
       classifyError e = serverFallbackMsg r.status) ∧
    (∀ r, e.response = some r → Option.bind r.data ErrBody.error = none →
       classifyError e = serverFallbackMsg r.status) ∧
    (e.response = none → e.request = true → classifyError e = networkMsg) ∧
    (e.response = none → e.request = false →
       classifyError e = "Error: " ++ e.message) ∧
    networkMsg ≠ serverFallbackMsg st := by
  obtain ⟨resp, req, msg⟩ := e
  refine ⟨?_, ?_, ?_, ?_, ?_, networkMsg_ne_serverFallback st⟩
  · rintro r s rfl hb hs
    obtain ⟨rst, rdata⟩ := r
    cases rdata with
    | none => simp at hb
    | some body =>
        cases hbe : body.error with
        | none => simp [hbe] at hb
        | some s2 =>
            simp [hbe] at hb
            subst hb
            simp [classifyError, hbe, hs]
  · rintro r rfl hb
    obtain ⟨rst, rdata⟩ := r
    cases rdata with
    | none => simp at hb
    | some body =>
        cases hbe : body.error with
        | none => simp [hbe] at hb
        | some s2 =>
            simp [hbe] at hb
            simp [classifyError, hbe, hb]
  · rintro r rfl hb
    obtain ⟨rst, rdata⟩ := r
    cases rdata with
    | none => simp [classifyError]
    | some body =>
        cases hbe : body.error with
        | none => simp [classifyError, hbe]
        | some s2 => simp [hbe] at hb
  · rintro rfl hreq
    simp at hreq
    subst hreq
    simp [classifyError]
  · rintro rfl hreq
    simp at hreq
    subst hreq
    simp [classifyError]

/-- Claim C4 witness: the amended classification at concrete inputs. -/
theorem C4_errorClassification_witness :
    classifyError { response := none, request := true, message := "boom" } = networkMsg ∧
    networkMsg ≠ serverFallbackMsg 500 ∧
    classifyError { response := some { status := 500, data := some { error := some "corrupt file" } },
                    request := false, message := "" } = "corrupt file" := by
  refine ⟨?_, ?_, ?_⟩
  · exact (C4_errorClassification ⟨none, true, "boom"⟩ 500).2.2.2.1 rfl rfl
  · exact (C4_errorClassification ⟨none, true, "boom"⟩ 500).2.2.2.2.2
  · exact (C4_errorClassification ⟨some ⟨500, some ⟨some "corrupt file"⟩⟩, false, ""⟩ 0).1
      ⟨500, some ⟨some "corrupt file"⟩⟩ "corrupt file" rfl rfl (by decide)

/-- Claim C10: a response body whose error field is present but empty (falsy)
yields the status-code fallback message, not the empty string; an absent error
field likewise; only a non-empty (truthy) error string is surfaced. -/
theorem C10_falsyError (st : Nat) (req : Bool) (msg : String) (s : String) :
    classifyError { response := some { status := st, data := some { error := some "" } },
                    request := req, message := msg } = serverFallbackMsg st ∧
    classifyError { response := some { status := st, data := some { error := none } },
                    request := req, message := msg } = serverFallbackMsg st ∧
    (s ≠ "" →
      classifyError { response := some { status := st, data := some { error := some s } },
                      request := req, message := msg } = s) := by
  refine ⟨by simp [classifyError], by simp [classifyError], fun hs => by simp [classifyError, hs]⟩

/-- Claim C10 witness: the classifier at concrete falsy and truthy error
bodies. -/
theorem C10_falsyError_witness :
    classifyError { response := some { status := 404, data := some { error := some "" } },
                    request := false, message := "m" } = serverFallbackMsg 404 ∧
    classifyError { response := some { status := 404, data := some { error := some "bad" } },
                    request := false, message := "m" } = "bad" :=
  ⟨(C10_falsyError 404 false "m" "bad").1, (C10_falsyError 404 false "m" "bad").2.2 (by decide)⟩

/-- Claim C7: a submit with no resume file selected sets exactly the
validation message "Please upload a resume file.", issues no network call, and
leaves loading and the stored result unchanged. -/
theorem C7_missingFile (s : CState) (net : UploadOutcome) (h : s.resume = none) :
    (handleSubmit s net).state = { s with error := validationMsg } ∧
    (handleSubmit s net).request = none ∧
    (handleSubmit s net).state.loading = s.loading ∧
    (handleSubmit s net).state.result = s.result ∧
    validationMsg = "Please upload a resume file." := by
  refine ⟨?_, ?_, ?_, ?_, rfl⟩ <;> simp [handleSubmit, h]

/-- Claim C7 witness: the validation short-circuit at a concrete idle state. -/
theorem C7_missingFile_witness :
    (handleSubmit ⟨none, "", false, none, "", ""⟩ (.fail ⟨none, true, ""⟩)).request = none ∧
    (handleSubmit ⟨none, "", false, none, "", ""⟩ (.fail ⟨none, true, ""⟩)).state.error =
      "Please upload a resume file." := by
  refine ⟨(C7_missingFile ⟨none, "", false, none, "", ""⟩ (.fail ⟨none, true, ""⟩) rfl).2.1, ?_⟩
  have h := (C7_missingFile ⟨none, "", false, none, "", ""⟩ (.fail ⟨none, true, ""⟩) rfl).1
  rw [h]
  rfl

/-- Claim C6: with a resume file selected, the outbound payload omits the
`job_description` field exactly when the trimmed job description is empty,
and carries the (untrimmed) text exactly when the trimmed text is
non-empty. -/
theorem C6_jobDescription (s : CState) (file : String) (net : UploadOutcome)
    (h : s.resume = some file) :
    (jsTrim s.jobDescription = "" →
        (handleSubmit s net).request = some { resume := file, job_description := none }) ∧
    (jsTrim s.jobDescription ≠ "" →
        (handleSubmit s net).request =
          some { resume := file, job_description := some s.jobDescription }) := by
  cases net <;> constructor <;> intro ht <;> simp [handleSubmit, h, buildFormData, ht]

/-- Claim C6 witness: a whitespace-only description is omitted, a non-empty
one is included. -/
theorem C6_jobDescription_witness :
    (handleSubmit ⟨some "cv.pdf", "   ", false, none, "", ""⟩
        (.fail ⟨none, true, ""⟩)).request =
      some { resume := "cv.pdf", job_description := none } ∧
    (handleSubmit ⟨some "cv.pdf", "Backend engineer", false, none, "", ""⟩
        (.fail ⟨none, true, ""⟩)).request =
      some { resume := "cv.pdf", job_description := some "Backend engineer" } :=
  ⟨(C6_jobDescription ⟨some "cv.pdf", "   ", false, none, "", ""⟩ "cv.pdf"
      (.fail ⟨none, true, ""⟩) rfl).1 (by decide),
   (C6_jobDescription ⟨some "cv.pdf", "Backend engineer", false, none, "", ""⟩ "cv.pdf"
      (.fail ⟨none, true, ""⟩) rfl).2 (by decide)⟩

/-- Claim C1, counterexample: in the `ResumeUploadImproved` display layer an
absent `keyword_overlap` metric is not omitted — its `ScorePill` is rendered
with the coalesced value 0. -/
theorem C1_counterexample :
    sampleResult.keyword_overlap = JField.missing ∧
    DisplayItem.scorePill "Keyword" (JField.numv 0) ∈ renderImproved sampleResult := by
  refine ⟨rfl, ?_⟩
  simp [renderImproved, sampleResult, JField.coalesceZero]

/-- Claim C1 (amended): in the basic `ResumeUpload` variant every metric that
is absent or non-numeric is omitted from the display; in
`ResumeUploadImproved` this holds for `ats_score` only, while the
`keyword_overlap`, `semantic_similarity` and `match_score` pills are always
rendered, with absent or null values coalesced to the number 0. -/
theorem C1_metricPresence (r : EvalResult) :
    rendersAts (renderImproved r) = r.ats_score.isNumber ∧
    rendersAts (renderBasic r) = r.ats_score.isNumber ∧
    rendersLine "Keyword Overlap" (renderBasic r) = r.keyword_overlap.isNumber ∧
    rendersLine "Semantic Similarity" (renderBasic r) = r.semantic_similarity.isNumber ∧
    rendersLine "Overall Match Score" (renderBasic r) = r.match_score.isNumber ∧
    DisplayItem.scorePill "Keyword" r.keyword_overlap.coalesceZero ∈ renderImproved r ∧
    DisplayItem.scorePill "Semantic" r.semantic_similarity.coalesceZero ∈ renderImproved r ∧
    DisplayItem.scorePill "Match" r.match_score.coalesceZero ∈ renderImproved r ∧
    JField.coalesceZero JField.missing = JField.numv 0 ∧
    JField.coalesceZero JField.nullv = JField.numv 0 := by
  refine ⟨?_, ?_, ?_, ?_, ?_, ?_, ?_, ?_, rfl, rfl⟩
  · simp only [renderImproved, rendersAts_append, rendersAts_pills,
      rendersAts_atsBlock, rendersAts_feedbackImproved, Bool.false_or,
      Bool.or_false]
  · simp only [renderBasic, rendersAts_append, rendersAts_atsBlock,
      rendersAts_metricBlock, rendersAts_feedbackBasic, Bool.false_or,
      Bool.or_false]
  · simp only [renderBasic, rendersLine_append, rendersLine_atsBlock,
      rendersLine_metricBlock, rendersLine_feedbackBasic, Bool.false_or,
      Bool.or_false]
    simp
  · simp only [renderBasic, rendersLine_append, rendersLine_atsBlock,
      rendersLine_metricBlock, rendersLine_feedbackBasic, Bool.false_or,
      Bool.or_false]
    simp
  · simp only [renderBasic, rendersLine_append, rendersLine_atsBlock,
      rendersLine_metricBlock, rendersLine_feedbackBasic, Bool.false_or,
      Bool.or_false]
    simp
  · simp [renderImproved]
  · simp [renderImproved]
  · simp [renderImproved]

/-- Claim C2, counterexample: with a prior successful result live, a submit
that fails with a network error does not leave the prior result live — the
result slot is `none` afterwards, because `setResult(null)` runs before the
network call. -/
theorem C2_counterexample :
    (⟨some "cv.pdf", "", false, some sampleResult, "",
        "Resume evaluated successfully!"⟩ : CState).result = some sampleResult ∧
    (handleSubmit
        ⟨some "cv.pdf", "", false, some sampleResult, "",
          "Resume evaluated successfully!"⟩
        (.fail ⟨none, true, ""⟩)).state.result = none :=
  ⟨rfl, rfl⟩

/-- Claim C2 (amended): a submit that passes the file-presence check clears
the prior result before the network call, so after a failed submission no
prior result is live and after a successful one the new result is; only a
validation-rejected submit (no file chosen) leaves the prior result in place;
an explicit reset clears it. -/
theorem C2_resultLifecycle (s : CState) (net : UploadOutcome) :
    (handleSubmit s net).state.result =
      (match s.resume, net with
       | none, _ => s.result
       | some _, .ok d => some d
       | some _, .fail _ => none) ∧
    (resetAction s).result = none := by
  refine ⟨?_, rfl⟩
  cases hr : s.resume <;> cases net <;> simp [handleSubmit, hr]

/-- Claim C8, counterexample: the export validation message produced by the
code is "No feedback available to export.", not the claimed lowercase
"no feedback available to export". -/
theorem C8_counterexample :
    (handleDownloadPDF ⟨none, "", false, none, "", ""⟩ .ok).state.error =
      "No feedback available to export." ∧
    "No feedback available to export." ≠ "no feedback available to export" :=
  ⟨rfl, by decide⟩

/-- Claim C8 (amended): exporting with no live result fails with the
validation message "No feedback available to export." and issues no export
request; with a live result the full result is posted and, on success, the
returned stream is saved under the fixed filename resume_feedback.pdf. -/
theorem C8_exportPdf (s : CState) (net : ExportOutcome) :
    (s.result = none →
       (handleDownloadPDF s net).state = { s with error := noFeedbackMsg } ∧
       (handleDownloadPDF s net).request = none ∧
       (handleDownloadPDF s net).savedAs = none ∧
       noFeedbackMsg = "No feedback available to export.") ∧
    (∀ r, s.result = some r →
       (handleDownloadPDF s net).request = some r ∧
       (net = .ok →
         (handleDownloadPDF s net).savedAs = some "resume_feedback.pdf")) := by
  constructor
  · intro h
    refine ⟨?_, ?_, ?_, rfl⟩ <;> simp [handleDownloadPDF, h]
  · rintro r hr
    cases net <;> simp [handleDownloadPDF, hr]

/-- Claim C8 witness: the export handler at a state with no result and at one
with a live result. -/
theorem C8_exportPdf_witness :
    (handleDownloadPDF ⟨none, "", false, none, "", ""⟩ .ok).request = none ∧
    (handleDownloadPDF ⟨none, "", false, some sampleResult, "", ""⟩ .ok).savedAs =
      some "resume_feedback.pdf" :=
  ⟨((C8_exportPdf ⟨none, "", false, none, "", ""⟩ .ok).1 rfl).2.1,
   ((C8_exportPdf ⟨none, "", false, some sampleResult, "", ""⟩ .ok).2
      sampleResult rfl).2 rfl⟩

/-- Claim C9: a successful clipboard copy sets the transient confirmation
message and schedules exactly one timeout — 2000 ms, clearing the success
slot — and this is the only timeout any operation schedules; a failed copy
writes the generic "Failed to copy" into the same single-slot error field
used by submission errors. -/
theorem C9_clipboard (s : CState) (net : UploadOutcome) (enet : ExportOutcome) :
    (copyToClipboard s true).state.success = "Copied to clipboard" ∧
    (copyToClipboard s true).timeouts = [⟨2000, TimeoutAction.clearSuccess⟩] ∧
    (runTimeoutAction TimeoutAction.clearSuccess (copyToClipboard s true).state).success = "" ∧
    (copyToClipboard s false).state = { s with error := "Failed to copy" } ∧
    (copyToClipboard s false).timeouts = [] ∧
    (handleSubmit s net).timeouts = [] ∧
    (handleDownloadPDF s enet).timeouts = [] := by
  refine ⟨rfl, rfl, rfl, rfl, rfl, ?_, ?_⟩
  · cases hr : s.resume <;> cases net <;> simp [handleSubmit, hr]
  · cases hres : s.result <;> cases enet <;> simp [handleDownloadPDF, hres]

end ResumeApp
